import Mathlib

/-!
Shallow embedding of the crisis-monitoring collection pipeline
(src/services/collectors, src/models and src/config of the repository),
together with theorems settling the behavioural claims about it.

Modelling conventions:
* Python strings are Lean strings; `str.lower()` is mapped characterwise
  (`pyLower`), the Python substring operator `pat in hay` is `containsSub`
  over character lists, and `str.split(sep)` is `pySplit`.
* Machine-level details the claims do not touch (network fetching, the DOM
  parser, wall-clock datetimes, generated ObjectIds, float-valued embedding
  vectors and coordinates) are abstracted: fetch/parse results enter as
  explicit inputs and timestamps are natural numbers.
* A collector invocation inside the manager either raises (`Except.error`)
  or returns its events (`Except.ok`); the Python code that catches
  exceptions is embedded as explicit case analysis on that outcome.
-/

namespace Crisis

/-- Characterwise lowercasing, embedding Python `str.lower()` (every
keyword involved is ASCII, where the two functions agree). -/
def pyLower (s : String) : String := String.mk (s.toList.map Char.toLower)

/-- Contiguous-substring test over character lists, embedding the Python
string operator `pat in hay`. -/
def containsSub (hay pat : List Char) : Bool :=
  hay.tails.any (fun t => pat.isPrefixOf t)

/-- Embedding of Python `s.split(sep)`: splits at every separator and keeps
empty segments, so the result always has one segment more than there are
separators. -/
def pySplit (sep : Char) : List Char → List (List Char)
  | [] => [[]]
  | x :: xs =>
    let r := pySplit sep xs
    if x == sep then [] :: r else (x :: r.headD []) :: r.tail

/-- Test whether a string starts with the given character, embedding
Python `s.startswith(c)` for a one-character argument. -/
def startsWithChar (s : String) (c : Char) : Bool :=
  match s.toList with
  | [] => false
  | x :: _ => x == c

/-- Keyword categories of src/config/data_collection_config.py
(CRISIS_KEYWORDS), in dictionary insertion order. -/
def CRISIS_KEYWORDS : List (String × List String) :=
  [("natural_disaster",
    ["earthquake", "flood", "hurricane", "tsunami", "tornado",
     "wildfire", "landslide", "volcanic eruption", "severe storm",
     "flash flood", "drought", "avalanche"]),
   ("human_conflict",
    ["bombing", "shooting", "explosion", "attack", "terrorism",
     "hostage", "riot", "armed conflict", "violence", "mass shooting",
     "civil unrest"]),
   ("health_crisis",
    ["outbreak", "epidemic", "pandemic", "mass casualty",
     "hospital emergency", "toxic spill", "disease outbreak",
     "public health emergency", "medical crisis"]),
   ("infrastructure",
    ["building collapse", "bridge collapse", "train derailment",
     "plane crash", "major accident", "infrastructure failure",
     "power outage", "gas leak", "structural failure"]),
   ("humanitarian",
    ["evacuation", "refugees", "humanitarian crisis",
     "emergency response", "disaster relief", "rescue operation",
     "missing people", "casualties", "stranded", "emergency shelter"])]

/-- Tracked hashtags of src/config/data_collection_config.py
(CRISIS_HASHTAGS). -/
def CRISIS_HASHTAGS : List String :=
  ["#emergency", "#disaster", "#crisis", "#breaking",
   "#rescue", "#alert", "#emergency", "#breakingnews",
   "#disaster", "#SOS", "#urgenthelp", "#911", "#firstresponders",
   "#evacuation", "#relief", "#naturaldisaster"]

/-- Harvest interval of src/config/data_collection_config.py. -/
def UPDATE_INTERVAL_SECONDS : Nat := 60

/-- Embedding of BaseDataCollector._flatten_keywords: the category keyword
lists flattened into one list, plus the hashtags with every marker
character removed (Python `tag.replace`), deduplicated. The Python code
deduplicates through `set`, whose iteration order is arbitrary; only
membership is ever used, so a deterministic `dedup` stands in for it. -/
def flatten_keywords : List String :=
  ((CRISIS_KEYWORDS.map Prod.snd).flatten
    ++ CRISIS_HASHTAGS.map (fun tag => String.mk (tag.toList.filter (fun c => c != '#')))).dedup

/-- Keyword corpus held by every collector (BaseDataCollector.__init__). -/
def keywords : List String := flatten_keywords

/-- Embedding of BaseDataCollector.is_relevant_content: an empty text is
irrelevant, otherwise the lowercased text is scanned for any lowercased
corpus keyword as a substring. -/
def is_relevant_content (text : String) : Bool :=
  if text = "" then false
  else keywords.any (fun k => containsSub (pyLower text).toList (pyLower k).toList)

/-- Event categories (src/models/enums.py, EventType). -/
inductive EventType
  | EARTHQUAKE
  | FLOOD
  | FIRE
  | VIOLENCE
  | DISEASE_OUTBREAK
  | INFRASTRUCTURE_FAILURE
  | PROTEST
  | INDUSTRIAL_ACCIDENT
  | OTHER
  deriving DecidableEq

/-- Urgency levels (src/models/enums.py, UrgencyLevel). -/
inductive UrgencyLevel
  | CRITICAL
  | HIGH
  | MEDIUM
  | LOW
  | MONITORING
  deriving DecidableEq

/-- Crisis status values (src/models/enums.py, CrisisStatus). -/
inductive CrisisStatus
  | ACTIVE
  | RESOLVED
  | MONITORING
  | ARCHIVED
  deriving DecidableEq

/-- String a CrisisStatus member stands for (it is a str-valued enum, and
the status field of an event record is a plain string). -/
def CrisisStatus.value : CrisisStatus → String
  | CrisisStatus.ACTIVE => "active"
  | CrisisStatus.RESOLVED => "resolved"
  | CrisisStatus.MONITORING => "monitoring"
  | CrisisStatus.ARCHIVED => "archived"

/-- Location (src/models/supporting_models.py). The optional float
coordinate pair is never set by the collector and is not modelled
(floating point). -/
structure Location where
  country : String
  city : Option String := none
  region : Option String := none
  address : Option String := none
  deriving DecidableEq

/-- Impact assessment (src/models/supporting_models.py); every field
defaults to empty. -/
structure ImpactAssessment where
  casualties : Option Nat := none
  injuries : Option Nat := none
  displaced_people : Option Nat := none
  affected_population : Option Nat := none
  infrastructure_damage : Option String := none
  deriving DecidableEq

/-- Humanitarian needs (src/models/supporting_models.py); every field
defaults to empty. -/
structure HumanitarianNeeds where
  medical_aid : Bool := false
  shelter : Bool := false
  food_water : Bool := false
  rescue_teams : Bool := false
  evacuation : Bool := false
  infrastructure_repair : Bool := false
  details : Option String := none
  deriving DecidableEq

/-- Provenance source entry (src/models/supporting_models.py, Source).
The default wall-clock timestamp and the free-form metadata dict are not
modelled; the collector always passes an explicit timestamp. -/
structure Source where
  type : String
  url : Option String := none
  text : String
  timestamp : Nat
  deriving DecidableEq

/-- Crisis event record (src/models/crisis_event.py). The generated
ObjectId, the wall-clock creation timestamps, the embedding vector and
the similar-event id list are I/O-dependent defaults the pipeline never
reads and are not modelled. -/
structure CrisisEvent where
  title : String
  event_type : EventType
  urgency_level : UrgencyLevel
  status : String := "active"
  location : Location
  impact : ImpactAssessment
  humanitarian_needs : HumanitarianNeeds
  recommended_actions : List String := []
  sources : List Source := []
  verification_status : String := "unverified"
  tags : List String := []
  notes : Option String := none
  deriving DecidableEq

/-- Crisis indicator set hard-coded inside WebScraperCollector._scrape_source
(a Python set literal; the literal lists "emergency" twice, which the set
collapses — only membership is ever used). -/
def crisis_indicators : List String :=
  ["emergency", "crisis", "disaster", "outbreak", "earthquake",
   "flood", "hurricane", "evacuation", "casualties", "damage",
   "victims", "injured", "dead", "killed", "destroyed", "urgent",
   "humanitarian", "rescue", "relief"]

/-- Test whether any keyword of a group occurs in the already lowercased
title, embedding `any(word in lower_title for word in [...])`. -/
def anyKeywordIn (lower_title : String) (ws : List String) : Bool :=
  ws.any (fun w => containsSub lower_title.toList w.toList)

/-- Embedding of WebScraperCollector._extract_crisis_type: the fixed
if/elif keyword-group chain over the lowercased title. -/
def extract_crisis_type (title : String) : EventType :=
  let lower_title := pyLower title
  if anyKeywordIn lower_title ["earthquake", "tsunami", "volcano", "seismic"] then
    EventType.EARTHQUAKE
  else if anyKeywordIn lower_title ["flood", "hurricane", "storm", "tornado"] then
    EventType.FLOOD
  else if anyKeywordIn lower_title ["fire", "wildfire", "blaze"] then
    EventType.FIRE
  else if anyKeywordIn lower_title ["war", "conflict", "attack", "violence", "crisis"] then
    EventType.VIOLENCE
  else if anyKeywordIn lower_title ["epidemic", "pandemic", "outbreak", "disease", "infection"] then
    EventType.DISEASE_OUTBREAK
  else if anyKeywordIn lower_title ["collapse", "infrastructure", "power outage", "blackout"] then
    EventType.INFRASTRUCTURE_FAILURE
  else if anyKeywordIn lower_title ["protest", "demonstration", "riot"] then
    EventType.PROTEST
  else if anyKeywordIn lower_title ["accident", "explosion", "spill", "leak"] then
    EventType.INDUSTRIAL_ACCIDENT
  else
    EventType.OTHER

/-- Ordered keyword groups of the classifier exactly as section 4.6 of
the specification lists them; used for the refinement statement about
extract_crisis_type. -/
def classifier_groups : List (List String × EventType) :=
  [(["earthquake", "tsunami", "volcano", "seismic"], EventType.EARTHQUAKE),
   (["flood", "hurricane", "storm", "tornado"], EventType.FLOOD),
   (["fire", "wildfire", "blaze"], EventType.FIRE),
   (["war", "conflict", "attack", "violence", "crisis"], EventType.VIOLENCE),
   (["epidemic", "pandemic", "outbreak", "disease", "infection"], EventType.DISEASE_OUTBREAK),
   (["collapse", "infrastructure", "power outage", "blackout"], EventType.INFRASTRUCTURE_FAILURE),
   (["protest", "demonstration", "riot"], EventType.PROTEST),
   (["accident", "explosion", "spill", "leak"], EventType.INDUSTRIAL_ACCIDENT)]

/-- First-match scan over ordered keyword groups, falling through to
OTHER. -/
def classify_scan (lower_title : String) : List (List String × EventType) → EventType
  | [] => EventType.OTHER
  | g :: rest =>
    if anyKeywordIn lower_title g.1 then g.2 else classify_scan lower_title rest

/-- Classifier as the specification words it (section 4.6): lowercase the
title, test the fixed ordered groups, return the first matching category,
fall through to OTHER. -/
def classify_spec (title : String) : EventType :=
  classify_scan (pyLower title) classifier_groups

/-- Embedding of the link normalization inside _scrape_source: a link
beginning with "/" is prefixed with the first and third slash-separated
segments of the source url (its scheme segment and its host segment),
other links pass through. Every configured source url contains "//", so
the segment lookups cannot run off the end there; `getD` stands in for
Python list indexing (on a malformed url Python would raise IndexError and
the surrounding per-candidate handler would skip the candidate). -/
def normalizeLink (source_url link : String) : String :=
  if startsWithChar link '/' then
    String.mk ((pySplit '/' source_url.toList).getD 0 [])
      ++ "//" ++ String.mk ((pySplit '/' source_url.toList).getD 2 []) ++ link
  else link

/-- Raw candidate extracted from one article node: stripped title text,
href of the link node, text of the snippet paragraph ("" when absent). -/
structure RawCandidate where
  title : String
  link : String
  snippet : String
  deriving DecidableEq

/-- Combined text the web collector checks: lowercased title, one space,
lowercased snippet (the f-string in _scrape_source). -/
def combinedText (c : RawCandidate) : String :=
  pyLower c.title ++ " " ++ pyLower c.snippet

/-- Keep decision of _scrape_source: the combined text must contain a
member of the hard-coded crisis_indicators set. -/
def keepCandidate (c : RawCandidate) : Bool :=
  crisis_indicators.any (fun ind => containsSub (combinedText c).toList ind.toList)

/-- Crisis event assembled by _scrape_source for one kept candidate;
`now` is the fetch timestamp the code reads from the clock. -/
def buildEvent (source_url : String) (now : Nat) (c : RawCandidate) : CrisisEvent :=
  { title := c.title
    event_type := extract_crisis_type c.title
    urgency_level := UrgencyLevel.MEDIUM
    status := CrisisStatus.ACTIVE.value
    location := { country := "Unknown" }
    impact := {}
    humanitarian_needs := {}
    sources := [{ type := "news"
                  url := some (normalizeLink source_url c.link)
                  text := c.title
                  timestamp := now }] }

/-- Candidate loop of _scrape_source: each article node yields either a
candidate or `none` (title or link node missing, or a per-candidate
extraction error — either way the loop continues with the next node);
kept candidates are assembled into events in document order. -/
def scrape_source_events (source_url : String) (now : Nat)
    (articles : List (Option RawCandidate)) : List CrisisEvent :=
  articles.filterMap (fun a =>
    a.bind (fun c => if keepCandidate c then some (buildEvent source_url now c) else none))

/-- Mutable state of CollectorManager: running flag, last-run timestamp
and cumulative event count (timestamps as naturals). The asyncio task
handle is not modelled. -/
structure ManagerState where
  is_running : Bool
  last_run : Option Nat
  collection_count : Nat
  deriving DecidableEq

/-- Manager state exactly as CollectorManager.__init__ builds it. -/
def init_manager : ManagerState :=
  { is_running := false, last_run := none, collection_count := 0 }

/-- Appending a collector to the registry (register_collector). In this
embedding a registered collector is identified with the outcome of its
collect() call in the cycle at hand. -/
def register_collector {β : Type} (collectors : List β) (c : β) : List β :=
  collectors ++ [c]

/-- Body of the per-collector try/except inside collect_all: a successful
collect() extends the event list, adds its length to the cumulative count
and stamps last_run; a raising collect() is caught and leaves everything
unchanged. -/
def collect_step {α : Type} (now : Nat) (acc : List α × ManagerState)
    (r : Except Unit (List α)) : List α × ManagerState :=
  match r with
  | Except.ok events =>
    (acc.1 ++ events,
      { acc.2 with
          collection_count := acc.2.collection_count + events.length
          last_run := some now })
  | Except.error _ => acc

/-- Embedding of CollectorManager.collect_all: fold the per-collector
try/except over the registered collectors in order, starting from the
empty event list. -/
def collect_all {α : Type} (now : Nat) (results : List (Except Unit (List α)))
    (s : ManagerState) : List α × ManagerState :=
  results.foldl (collect_step now) ([], s)

/-- Embedding of CollectorManager.get_status: last-run timestamp and
cumulative count. -/
def get_status (s : ManagerState) : Option Nat × Nat :=
  (s.last_run, s.collection_count)

/-- Embedding of CollectorManager.stop_collection. -/
def stop_collection (s : ManagerState) : ManagerState :=
  { s with is_running := false }

/-- Outcome of the guarded prologue of start_collection_loop: either the
already-running guard returns, or the while loop is entered. -/
inductive StartOutcome
  | guardReturn
  | loopEntered
  deriving DecidableEq

/-- Prologue of CollectorManager.start_collection_loop exactly as
written: it first resets is_running to False, then tests the
already-running guard, and otherwise sets is_running and enters the
loop. -/
def start_collection_loop_entry (s : ManagerState) : ManagerState × StartOutcome :=
  let s1 : ManagerState := { s with is_running := false }
  if s1.is_running then (s1, StartOutcome.guardReturn)
  else ({ s1 with is_running := true }, StartOutcome.loopEntered)

/-- Input one loop iteration consumes from the outside world: the
per-collector outcomes of the cycle and the clock value. -/
structure CycleData (α : Type) where
  results : List (Except Unit (List α))
  now : Nat

/-- Control points of the while loop of start_collection_loop. -/
inductive LoopPhase
  | checking
  | collecting
  | sleeping
  | exited
  deriving DecidableEq

/-- State of the scheduler loop: its control point plus the manager state
it mutates. -/
structure LoopState where
  phase : LoopPhase
  mgr : ManagerState
  deriving DecidableEq

/-- One small step of the while loop: the condition check reads
is_running; a cycle runs collect_all and then sleeps (the except branch
of the body also only sleeps); waking from the sleep returns to the
condition check. -/
def loopStep {α : Type} (d : CycleData α) (ls : LoopState) : LoopState :=
  match ls.phase with
  | LoopPhase.checking =>
    if ls.mgr.is_running then { ls with phase := LoopPhase.collecting }
    else { ls with phase := LoopPhase.exited }
  | LoopPhase.collecting =>
    { phase := LoopPhase.sleeping, mgr := (collect_all d.now d.results ls.mgr).2 }
  | LoopPhase.sleeping => { ls with phase := LoopPhase.checking }
  | LoopPhase.exited => ls

/-- Iterate the loop a number of small steps under a stream of cycle
inputs. -/
def runLoop {α : Type} (env : Nat → CycleData α) : Nat → LoopState → LoopState
  | 0, ls => ls
  | n + 1, ls => loopStep (env n) (runLoop env n ls)

/-- True exactly in the phase in which a collect_all cycle is running. -/
def phaseIsCollecting (ls : LoopState) : Bool :=
  match ls.phase with
  | LoopPhase.collecting => true
  | _ => false

/-- Concrete cycle-input stream used in closed instances: no collectors,
clock 0. -/
def wEnv : Nat → CycleData Nat := fun _ => { results := [], now := 0 }

/-- Concrete loop state used in closed instances: at the condition check
with the running flag still set. -/
def wLoop : LoopState :=
  { phase := LoopPhase.checking
    mgr := { is_running := true, last_run := none, collection_count := 0 } }

/-- Concrete relevant candidate used in closed instances. -/
def wCandidate : RawCandidate :=
  { title := "Earthquake hits", link := "/a", snippet := "" }

/-- Concrete candidate that passes the corpus filter but not the
hard-coded indicator set. -/
def wTsunami : RawCandidate :=
  { title := "tsunami", link := "/t", snippet := "" }

/-- containsSub decides the contiguous-substring relation on character
lists. -/
theorem containsSub_iff (hay pat : List Char) :
    containsSub hay pat = true ↔ pat <:+: hay := by
  simp only [containsSub, List.any_eq_true, List.mem_tails, List.isPrefixOf_iff_prefix]
  constructor
  · rintro ⟨t, ht, hp⟩
    exact hp.isInfix.trans ht.isInfix
  · intro h
    obtain ⟨t, hp, hs⟩ := List.infix_iff_prefix_suffix.mp h
    exact ⟨t, hs, hp⟩

/-- No corpus keyword lowercases to the empty string. -/
theorem keywords_lower_ne_nil : ∀ k ∈ keywords, (pyLower k).toList ≠ [] := by decide

/-- Claim C7: a text is relevant exactly when its lowercasing contains
some member of the keyword corpus (the flattened category lists plus the
de-hashed hashtags, deduplicated) as a contiguous substring; matching is
case-insensitive, keywords being lowercased just as the code does. -/
theorem is_relevant_content_iff_corpus (t : String) :
    is_relevant_content t = true
      ↔ ∃ k ∈ keywords, (pyLower k).toList <:+: (pyLower t).toList := by
  unfold is_relevant_content
  by_cases h : t = ""
  · subst h
    rw [if_pos rfl]
    simp only [Bool.false_eq_true, false_iff]
    rintro ⟨k, hk, hinf⟩
    exact keywords_lower_ne_nil k hk (List.infix_nil.mp hinf)
  · rw [if_neg h]
    simp only [List.any_eq_true, containsSub_iff]

/-- Claim C1: the already-running guard of start_collection_loop can
never fire, because the code resets the running flag to False immediately
before testing it; every call — in particular one made while the loop is
already running — re-enters the loop body instead of returning via the
guard, and leaves the flag set. This evaluates the embedded prologue on
every manager state, including the failing one with is_running = true. -/
theorem start_collection_loop_guard_dead (s : ManagerState) :
    (start_collection_loop_entry s).2 = StartOutcome.loopEntered
      ∧ (start_collection_loop_entry s).1.is_running = true :=
  ⟨rfl, rfl⟩

/-- Claim C4 counterexample: the title "tsunami flood attack" contains a
FLOOD-group keyword and a VIOLENCE-group keyword, yet the classifier
returns EARTHQUAKE, not FLOOD, because the EARTHQUAKE group is tested
first and "tsunami" matches it. -/
theorem classify_flood_violence_counterexample :
    anyKeywordIn (pyLower "tsunami flood attack")
        ["flood", "hurricane", "storm", "tornado"] = true
    ∧ anyKeywordIn (pyLower "tsunami flood attack")
        ["war", "conflict", "attack", "violence", "crisis"] = true
    ∧ extract_crisis_type "tsunami flood attack" = EventType.EARTHQUAKE
    ∧ EventType.EARTHQUAKE ≠ EventType.FLOOD := by decide

/-- Claim C4 (amended): the classifier is a pure total function of the
title that tests the fixed keyword groups in the order EARTHQUAKE, FLOOD,
FIRE, VIOLENCE, DISEASE_OUTBREAK, INFRASTRUCTURE_FAILURE, PROTEST,
INDUSTRIAL_ACCIDENT over the lowercased title, returning the first
matching group and OTHER when none matches; a title containing both a
FLOOD keyword and a VIOLENCE keyword, and no keyword of the earlier
EARTHQUAKE group, classifies as FLOOD. -/
theorem extract_crisis_type_first_match :
    (∀ title : String, extract_crisis_type title = classify_spec title)
    ∧ (∀ title : String,
        anyKeywordIn (pyLower title) ["flood", "hurricane", "storm", "tornado"] = true →
        anyKeywordIn (pyLower title) ["war", "conflict", "attack", "violence", "crisis"] = true →
        anyKeywordIn (pyLower title) ["earthquake", "tsunami", "volcano", "seismic"] = false →
        extract_crisis_type title = EventType.FLOOD) := by
  constructor
  · intro title
    rfl
  · intro title hf hv he
    unfold extract_crisis_type
    simp [he, hf]

/-- Except-to-Option recognises exactly the successful outcomes. -/
theorem toOption_eq_some {α : Type} (r : Except Unit (List α)) (l : List α) :
    Except.toOption r = some l ↔ r = Except.ok l := by
  cases r <;> simp [Except.toOption]

/-- Unfolding of the collect_all fold: the events are the concatenation
of the successful outputs appended to the accumulator, the count grows by
their total length, the last-run timestamp is stamped iff some collector
succeeded, and the running flag is untouched. -/
theorem collect_foldl {α : Type} (now : Nat) (results : List (Except Unit (List α))) :
    ∀ (acc : List α) (s : ManagerState),
      results.foldl (collect_step now) (acc, s) =
        (acc ++ (results.filterMap Except.toOption).flatten,
          { is_running := s.is_running
            last_run :=
              if results.any (fun r => (Except.toOption r).isSome) then some now else s.last_run
            collection_count :=
              s.collection_count + ((results.filterMap Except.toOption).flatten).length }) := by
  induction results with
  | nil => intro acc s; simp
  | cons r rest ih =>
    intro acc s
    cases r with
    | ok l =>
      simp only [List.foldl_cons, collect_step]
      rw [ih]
      simp [Except.toOption, List.append_assoc, Nat.add_assoc]
    | error e =>
      simp only [List.foldl_cons, collect_step]
      rw [ih]
      simp [Except.toOption]

/-- Some collector succeeded iff the any-test on outcome options fires. -/
theorem any_ok_iff {α : Type} (results : List (Except Unit (List α))) :
    results.any (fun r => (Except.toOption r).isSome) = true ↔ ∃ l, Except.ok l ∈ results := by
  simp only [List.any_eq_true, Option.isSome_iff_exists, toOption_eq_some]
  constructor
  · rintro ⟨r, hr, l, rfl⟩
    exact ⟨l, hr⟩
  · rintro ⟨l, hl⟩
    exact ⟨Except.ok l, hl, l, rfl⟩

/-- Claim C3: collect_all never raises and isolates failures — it is a
total function of the per-collector outcomes; a collector whose collect()
raises is caught and is equivalent to not being registered this cycle;
and an event is returned exactly when some collector whose collect()
succeeded produced it. -/
theorem collect_all_isolates_failures {α : Type} (now : Nat) (s : ManagerState) :
    (∀ pre post : List (Except Unit (List α)),
      collect_all now (pre ++ Except.error () :: post) s = collect_all now (pre ++ post) s)
    ∧ (∀ (results : List (Except Unit (List α))) (e : α),
      e ∈ (collect_all now results s).1 ↔ ∃ l, Except.ok l ∈ results ∧ e ∈ l) := by
  constructor
  · intro pre post
    unfold collect_all
    rw [List.foldl_append, List.foldl_append, List.foldl_cons]
    rfl
  · intro results e
    unfold collect_all
    rw [collect_foldl]
    simp only [List.nil_append, List.mem_flatten, List.mem_filterMap, toOption_eq_some]
    constructor
    · rintro ⟨l, ⟨r, hr, rfl⟩, he⟩
      exact ⟨l, hr, he⟩
    · rintro ⟨l, hl, he⟩
      exact ⟨l, ⟨Except.ok l, hl, rfl⟩, he⟩

/-- Claim C10: collect_all processes the registered collectors strictly
sequentially in registration order — the merged result is exactly the
concatenation of the successful collectors' output lists in that order,
and registering one more collector appends its contribution at the end. -/
theorem collect_all_sequential_concat {α : Type} (now : Nat) (s : ManagerState)
    (results : List (Except Unit (List α))) :
    (collect_all now results s).1 = (results.filterMap Except.toOption).flatten
    ∧ ∀ r : Except Unit (List α),
      (collect_all now (register_collector results r) s).1
        = (collect_all now results s).1 ++ (Except.toOption r).getD [] := by
  constructor
  · unfold collect_all
    rw [collect_foldl]
    simp
  · intro r
    unfold collect_all register_collector
    rw [collect_foldl, collect_foldl]
    cases r <;> simp [Except.toOption]

/-- Claim C5 counterexample: a cycle in which the only registered
collector raises returns normally but leaves the last-run timestamp
untouched (still none), whereas the claim requires it to be set to the
current time (here 5). -/
theorem collect_all_last_run_counterexample :
    get_status ((collect_all 5 ([Except.error ()] : List (Except Unit (List Nat)))
        { is_running := true, last_run := none, collection_count := 0 }).2)
      = (none, 0)
    ∧ (none : Option Nat) ≠ some 5 := by
  constructor
  · rfl
  · decide

/-- Claim C5 (amended): after collect_all the cumulative count has grown
by exactly the number of events returned this cycle; the last-run
timestamp is set to the current time whenever at least one collector
succeeded — in particular when one collector fails and another succeeds —
and is left unchanged when every collector failed. -/
theorem collect_all_accumulates_stats {α : Type} (now : Nat)
    (results : List (Except Unit (List α))) (s : ManagerState) :
    (collect_all now results s).2.collection_count
        = s.collection_count + ((collect_all now results s).1).length
    ∧ ((∃ l, Except.ok l ∈ results) →
        get_status ((collect_all now results s).2)
          = (some now, s.collection_count + ((collect_all now results s).1).length))
    ∧ ((¬ ∃ l, Except.ok l ∈ results) →
        get_status ((collect_all now results s).2) = (s.last_run, s.collection_count)) := by
  unfold collect_all get_status
  rw [collect_foldl]
  refine ⟨rfl, ?_, ?_⟩
  · intro hex
    have ha : results.any (fun r => (Except.toOption r).isSome) = true :=
      (any_ok_iff results).mpr hex
    simp [ha]
  · intro hne
    have ha : results.any (fun r => (Except.toOption r).isSome) = false := by
      rcases hb : results.any (fun r => (Except.toOption r).isSome) with _ | _
      · rfl
      · exact absurd ((any_ok_iff results).mp hb) hne
    have hnil : results.filterMap Except.toOption = [] := by
      rw [List.filterMap_eq_nil_iff]
      intro r hr
      cases hc : r with
      | ok l => exact absurd ⟨l, hc ▸ hr⟩ hne
      | error u => rfl
    simp [ha, hnil]

/-- Claim C5 witness: one raising collector followed by one successful
collector with a single event — the count grows by exactly one and the
last-run timestamp is stamped with the cycle time 3. -/
theorem collect_all_accumulates_stats_witness :
    (∃ l, Except.ok l ∈ ([Except.error (), Except.ok [10]] : List (Except Unit (List Nat))))
    ∧ get_status ((collect_all 3 ([Except.error (), Except.ok [10]] : List (Except Unit (List Nat)))
        { is_running := true, last_run := none, collection_count := 5 }).2) = (some 3, 6) :=
  ⟨⟨[10], List.Mem.tail _ (List.Mem.head _)⟩,
    (collect_all_accumulates_stats 3 _ _).2.1 ⟨[10], List.Mem.tail _ (List.Mem.head _)⟩⟩

/-- collect_all never touches the running flag. -/
theorem collect_all_is_running {α : Type} (now : Nat)
    (results : List (Except Unit (List α))) (s : ManagerState) :
    (collect_all now results s).2.is_running = s.is_running := by
  unfold collect_all
  rw [collect_foldl]

/-- One loop step never touches the running flag. -/
theorem loopStep_is_running {α : Type} (d : CycleData α) (ls : LoopState) :
    (loopStep d ls).mgr.is_running = ls.mgr.is_running := by
  cases hp : ls.phase with
  | checking =>
    by_cases hr : ls.mgr.is_running <;> simp [loopStep, hp, hr]
  | collecting => simp [loopStep, hp, collect_all_is_running]
  | sleeping => simp [loopStep, hp]
  | exited => simp [loopStep, hp]

/-- The running flag after any number of loop steps is the flag at the
start. -/
theorem runLoop_is_running {α : Type} (env : Nat → CycleData α) (n : Nat) (ls : LoopState) :
    (runLoop env n ls).mgr.is_running = ls.mgr.is_running := by
  induction n with
  | zero => rfl
  | succ n ih => simp [runLoop, loopStep_is_running, ih]

/-- From a state whose running flag is cleared, one loop step never moves
into the collecting phase. -/
theorem loopStep_not_collecting {α : Type} (d : CycleData α) (ls : LoopState)
    (h : ls.mgr.is_running = false) :
    phaseIsCollecting (loopStep d ls) = false := by
  cases hp : ls.phase <;> simp [loopStep, hp, h, phaseIsCollecting]

/-- Claim C8: once stop_collection has completed (the running flag is
false), the scheduler loop never begins another collect_all cycle: no
later step is ever in the collecting phase, and as soon as the loop next
evaluates its while-condition — for instance on waking from the
inter-cycle sleep — it exits. -/
theorem stop_collection_halts_loop {α : Type} (env : Nat → CycleData α) (ls : LoopState) :
    (∀ n : Nat,
      phaseIsCollecting (runLoop env (n + 1) { ls with mgr := stop_collection ls.mgr }) = false)
    ∧ (∀ n : Nat,
      (runLoop env n { ls with mgr := stop_collection ls.mgr }).phase = LoopPhase.checking →
      (runLoop env (n + 1) { ls with mgr := stop_collection ls.mgr }).phase = LoopPhase.exited) := by
  have hrun : ∀ n : Nat,
      (runLoop env n { ls with mgr := stop_collection ls.mgr }).mgr.is_running = false := by
    intro n
    rw [runLoop_is_running]
    rfl
  constructor
  · intro n
    have h := loopStep_not_collecting (env n)
      (runLoop env n { ls with mgr := stop_collection ls.mgr }) (hrun n)
    simpa [runLoop] using h
  · intro n h
    have hstep : runLoop env (n + 1) { ls with mgr := stop_collection ls.mgr }
        = loopStep (env n) (runLoop env n { ls with mgr := stop_collection ls.mgr }) := by
      simp [runLoop]
    rw [hstep]
    simp [loopStep, h, hrun n]

/-- Claim C8 witness: a loop stopped while at the condition check (the
flag had been set) exits at the very next step instead of starting a new
cycle. -/
theorem stop_collection_halts_loop_witness :
    (runLoop wEnv 0 { wLoop with mgr := stop_collection wLoop.mgr }).phase = LoopPhase.checking
    ∧ (runLoop wEnv 1 { wLoop with mgr := stop_collection wLoop.mgr }).phase = LoopPhase.exited :=
  ⟨by decide, (stop_collection_halts_loop wEnv wLoop).2 0 (by decide)⟩

/-- String append concatenates the character lists. -/
theorem toList_append (a b : String) : (a ++ b).toList = a.toList ++ b.toList :=
  String.data_append a b

/-- Rebuilding a string from a character list gives back that list. -/
theorem toList_mk (l : List Char) : (String.mk l).toList = l := rfl

/-- Strings with equal character lists are equal. -/
theorem string_ext {a b : String} (h : a.toList = b.toList) : a = b :=
  congrArg String.mk h

/-- Character list of the scheme separator literal. -/
theorem sep_toList : "://".toList = [':', '/', '/'] := rfl

/-- Character list of the double-slash literal. -/
theorem slashslash_toList : "//".toList = ['/', '/'] := rfl

/-- Character list of the slash literal. -/
theorem slash_toList : "/".toList = ['/'] := rfl

/-- Splitting a list made of a separator-free segment, the separator and
a remainder peels off that segment as the first part. -/
theorem pySplit_sep_append (c : Char) (s1 s2 : List Char) (h : c ∉ s1) :
    pySplit c (s1 ++ c :: s2) = s1 :: pySplit c s2 := by
  induction s1 with
  | nil => simp [pySplit]
  | cons x xs ih =>
    simp only [List.mem_cons] at h
    push_neg at h
    have hx : (x == c) = false := by
      simp only [beq_eq_false_iff_ne]
      exact Ne.symm h.1
    simp [pySplit, hx, ih h.2]

/-- Claim C6: a link beginning with "/" is rewritten to an absolute URL
from the source origin's scheme and host — the origin being any url of
the shape scheme ++ "://" ++ host ++ "/" ++ rest with slash-free scheme
and host — and every link not beginning with "/" passes through
unchanged. -/
theorem normalizeLink_spec (scheme host rest link : String)
    (hs : '/' ∉ scheme.toList) (hh : '/' ∉ host.toList) :
    (startsWithChar link '/' = true →
      normalizeLink (scheme ++ "://" ++ host ++ "/" ++ rest) link
        = scheme ++ "://" ++ host ++ link)
    ∧ (startsWithChar link '/' = false →
      normalizeLink (scheme ++ "://" ++ host ++ "/" ++ rest) link = link) := by
  constructor
  · intro hl
    unfold normalizeLink
    rw [if_pos hl]
    have hsc : '/' ∉ scheme.toList ++ [':'] := by
      intro hc
      rcases List.mem_append.mp hc with hc | hc
      · exact hs hc
      · simp at hc
    have hdata : (scheme ++ "://" ++ host ++ "/" ++ rest).toList
        = (scheme.toList ++ [':']) ++ '/' :: ([] ++ '/' :: (host.toList ++ '/' :: rest.toList)) := by
      simp [toList_append, sep_toList, slash_toList]
    rw [hdata, pySplit_sep_append '/' (scheme.toList ++ [':']) _ hsc,
        pySplit_sep_append '/' [] _ (by simp),
        pySplit_sep_append '/' host.toList _ hh]
    apply string_ext
    simp [toList_append, toList_mk, sep_toList, slashslash_toList]
  · intro hl
    simp [normalizeLink, hl]

/-- Claim C6 witness: the concrete example of the claim — the relative
link "/a/b" against origin "https://x.com/y" becomes
"https://x.com/a/b". -/
theorem normalizeLink_spec_witness :
    startsWithChar "/a/b" '/' = true
    ∧ normalizeLink "https://x.com/y" "/a/b" = "https://x.com/a/b" :=
  ⟨by decide,
    (normalizeLink_spec "https" "x.com" "y" "/a/b" (by decide) (by decide)).1 (by decide)⟩

/-- Claim C2 counterexample: the candidate titled "tsunami" satisfies the
section 4.5 relevance filter on its combined text ("tsunami" is a corpus
keyword), yet the web collector drops it, because the keep decision uses
the hard-coded crisis_indicators set, which lacks "tsunami". -/
theorem web_filter_not_corpus_filter :
    is_relevant_content (combinedText wTsunami) = true
    ∧ scrape_source_events "https://x.com/y" 0 [some wTsunami] = [] := by
  constructor
  · decide
  · decide

/-- Claim C2 (amended): a candidate the Web Collector extracts is kept
for event assembly iff its combined text (lowercased title, one space,
lowercased snippet) contains a member of the hard-coded
crisis_indicators set as a substring — not the section 4.5 corpus filter
— and the candidates failing that test are dropped without any error:
the output is exactly the kept candidates, in order, mapped through the
event builder. -/
theorem scrape_source_events_keep_iff (source_url : String) (now : Nat)
    (articles : List (Option RawCandidate)) :
    scrape_source_events source_url now articles
      = ((articles.filterMap id).filter keepCandidate).map (buildEvent source_url now) := by
  induction articles with
  | nil => rfl
  | cons a rest ih =>
    simp only [scrape_source_events] at ih ⊢
    cases a with
    | none => simp [List.filterMap_cons, ih]
    | some c =>
      by_cases h : keepCandidate c
      · simp [List.filterMap_cons, List.filter_cons, h, ih]
      · simp [List.filterMap_cons, List.filter_cons, h, ih]

/-- Claim C9: every crisis event the web collector assembles comes from
some extracted candidate and carries exactly one provenance source entry,
of kind "news", whose text is the candidate title and whose url is the
normalized link; its event-type is the classifier's output on its title
(always a member of the closed enumeration, OTHER at worst), its urgency
level is MEDIUM, its status is ACTIVE, its location is the unknown
default, and its impact and humanitarian-needs are the empty defaults. -/
theorem scrape_source_events_invariants (source_url : String) (now : Nat)
    (articles : List (Option RawCandidate)) (e : CrisisEvent)
    (he : e ∈ scrape_source_events source_url now articles) :
    (∃ c : RawCandidate, some c ∈ articles ∧ e = buildEvent source_url now c
      ∧ e.sources = [{ type := "news", url := some (normalizeLink source_url c.link),
                       text := c.title, timestamp := now }])
    ∧ e.sources.length = 1
    ∧ e.event_type = extract_crisis_type e.title
    ∧ e.urgency_level = UrgencyLevel.MEDIUM
    ∧ e.status = CrisisStatus.ACTIVE.value
    ∧ e.location = { country := "Unknown" }
    ∧ e.impact = {}
    ∧ e.humanitarian_needs = {} := by
  unfold scrape_source_events at he
  simp only [List.mem_filterMap] at he
  obtain ⟨a, ha, hfa⟩ := he
  cases a with
  | none => simp at hfa
  | some c =>
    simp only [Option.some_bind] at hfa
    by_cases h : keepCandidate c
    · rw [if_pos h] at hfa
      obtain rfl : buildEvent source_url now c = e := Option.some_injective _ hfa
      exact ⟨⟨c, ha, rfl, rfl⟩, rfl, rfl, rfl, rfl, rfl, rfl, rfl⟩
    · rw [if_neg h] at hfa
      cases hfa

/-- Claim C9 witness: the event assembled for the concrete candidate
"Earthquake hits" is in the collector output and has urgency MEDIUM. -/
theorem scrape_source_events_invariants_witness :
    buildEvent "https://x.com/y" 7 wCandidate
        ∈ scrape_source_events "https://x.com/y" 7 [some wCandidate]
    ∧ (buildEvent "https://x.com/y" 7 wCandidate).urgency_level = UrgencyLevel.MEDIUM :=
  ⟨by decide,
    (scrape_source_events_invariants "https://x.com/y" 7 [some wCandidate]
        (buildEvent "https://x.com/y" 7 wCandidate) (by decide)).2.2.2.1⟩

/-- Claim C4 witness: the amended priority statement instantiated at the
concrete title "flood attack". -/
theorem extract_crisis_type_first_match_witness :
    anyKeywordIn (pyLower "flood attack") ["flood", "hurricane", "storm", "tornado"] = true
    ∧ anyKeywordIn (pyLower "flood attack") ["war", "conflict", "attack", "violence", "crisis"] = true
    ∧ anyKeywordIn (pyLower "flood attack") ["earthquake", "tsunami", "volcano", "seismic"] = false
    ∧ extract_crisis_type "flood attack" = EventType.FLOOD :=
  ⟨by decide, by decide, by decide,
    extract_crisis_type_first_match.2 "flood attack" (by decide) (by decide) (by decide)⟩

end Crisis
